import Mathlib

/-!
Verification of the AlphaBot chat-service core
(`alphabot-back/app/services/chat_service.py` and its router
`alphabot-back/app/routers/chat.py`), shallowly embedded in Lean 4.

Python values flowing through the text-normalization and response-extraction
helpers are modelled by the inductive type `Value` below; strings are Lean
`String`s (ASCII semantics for upper-casing and whitespace, which is all the
stock-code pattern admits), machine integers are `Nat`/`Int`, and raised
`HTTPException`s become `Except HErr` results.  The database session is a pure
`DB` state threaded explicitly; every service function returns its result
together with the state as committed at the point of return or raise.
-/

mutual

/-- Python value shapes reaching the chat-service helpers: `None`, `str`,
`int` (floats are not exercised by these helpers' claims), `list`/`tuple`,
`dict`, and attribute-style objects.  Lists and field tables are the mutually
inductive `VList`/`FList` so that all functions below are structurally
recursive and kernel-computable.  An attribute-style object carries its field
table and its `str()` rendering (supplied in Python by the object's own
`__str__`). -/
inductive Value where
  | vnone : Value
  | vstr (s : String) : Value
  | vint (n : Int) : Value
  | vlist (xs : VList) : Value
  | vdict (fields : FList) : Value
  | vobj (fields : FList) (reprStr : String) : Value

/-- A Python list/tuple of values. -/
inductive VList where
  | nil : VList
  | cons (v : Value) (rest : VList) : VList

/-- A Python field table (`dict` entries / object attributes), in order. -/
inductive FList where
  | nil : FList
  | cons (k : String) (v : Value) (rest : FList) : FList

end

/-- Embed a Lean list of values as a `VList` (fixture convenience). -/
def VList.ofList : List Value → VList
  | [] => .nil
  | v :: vs => .cons v (VList.ofList vs)

/-- A `VList` as a Lean list. -/
def VList.toList : VList → List Value
  | .nil => []
  | .cons v rest => v :: rest.toList

/-- Embed a Lean association list as an `FList` (fixture convenience). -/
def FList.ofList : List (String × Value) → FList
  | [] => .nil
  | (k, v) :: rest => .cons k v (FList.ofList rest)

/-- Whether a `VList` is empty. -/
def VList.isNil : VList → Bool
  | .nil => true
  | .cons _ _ => false

/-- Whether an `FList` is empty. -/
def FList.isNil : FList → Bool
  | .nil => true
  | .cons _ _ _ => false

/-- Python list literal `[...]` as a `Value`. -/
def Value.listOf (xs : List Value) : Value := .vlist (VList.ofList xs)

/-- Python dict literal `{...}` as a `Value`. -/
def Value.dictOf (fields : List (String × Value)) : Value := .vdict (FList.ofList fields)

/-- Python truthiness for the value shapes above (`bool(v)`). -/
def pyTruthy : Value → Bool
  | .vnone => false
  | .vstr s => s ≠ ""
  | .vint n => n ≠ 0
  | .vlist xs => ¬ xs.isNil
  | .vdict fs => ¬ fs.isNil
  | .vobj _ _ => true

/-- Python `a or b` on values: the first operand when truthy, else the second. -/
def pyOr (a b : Value) : Value :=
  if pyTruthy a then a else b

/-- First association for `key` in a Python field table; missing keys give
`None`, exactly like `dict.get(key)` / `getattr(obj, key, None)`. -/
def lookupVal (fields : FList) (key : String) : Value :=
  match fields with
  | .nil => .vnone
  | .cons k v rest => if k = key then v else lookupVal rest key

/-- `_get_from_obj(obj, key)` (chat_service.py:95-101): `dict.get` on dicts,
`getattr(..., None)` on objects, the `None` default on everything else. -/
def _get_from_obj (obj : Value) (key : String) : Value :=
  match obj with
  | .vdict fields => lookupVal fields key
  | .vobj fields _ => lookupVal fields key
  | _ => .vnone

mutual

/-- Python `repr()` rendering of a value, used (via `str()`) by the final
fallback of `_coerce_text_value` (string escaping inside containers is
modelled as plain single quotes; no theorem depends on a string that would
need escapes). -/
def pyRepr : Value → String
  | .vnone => "None"
  | .vstr s => "'" ++ s ++ "'"
  | .vint n => toString n
  | .vlist xs => "[" ++ String.intercalate ", " (pyReprVList xs) ++ "]"
  | .vdict fields => "\x7b" ++ String.intercalate ", " (pyReprFList fields) ++ "\x7d"
  | .vobj _ r => r

/-- Rendered elements of a list value. -/
def pyReprVList : VList → List String
  | .nil => []
  | .cons v rest => pyRepr v :: pyReprVList rest

/-- Rendered `'key': value` entries of a field table. -/
def pyReprFList : FList → List String
  | .nil => []
  | .cons k v rest => ("'" ++ k ++ "': " ++ pyRepr v) :: pyReprFList rest

end

/-- Python `str(value)`: identity on strings, the object's own rendering on
attribute-style objects, `repr` otherwise. -/
def pyStr : Value → String
  | .vstr s => s
  | v => pyRepr v

/-- The characters matched by Python's `\s` (modelled on the ASCII range
these payloads and the stock-code pattern use). -/
def isPyWs (c : Char) : Bool :=
  c = ' ' || c = '\t' || c = '\n' || c = '\r' || c = '\x0b' || c = '\x0c'

/-- Python `s.strip()`: drop leading and trailing whitespace. -/
def pyStrip (s : String) : String :=
  String.mk (((s.toList.dropWhile isPyWs).reverse.dropWhile isPyWs).reverse)

/-- Python `s.upper()`, per character (ASCII; all characters the stock-code
pattern admits are ASCII). -/
def pyUpper (s : String) : String :=
  String.mk (s.toList.map Char.toUpper)

/-- Python `s.lower()`, per character (ASCII; the model-id comparison is over
ASCII ids). -/
def pyLower (s : String) : String :=
  String.mk (s.toList.map Char.toLower)

/-- `a.startswith(b)` on character lists. -/
def strStartsList : List Char → List Char → Bool
  | _, [] => true
  | [], _ :: _ => false
  | c :: cs, p :: ps => c = p && strStartsList cs ps

/-- Python `a.startswith(b)`. -/
def strStarts (a b : String) : Bool :=
  strStartsList a.toList b.toList

/-- Python `needle in hay` on character lists: some suffix starts with it. -/
def strContainsList : List Char → List Char → Bool
  | l, needle =>
      strStartsList l needle ||
        match l with
        | [] => false
        | _ :: t => strContainsList t needle

/-- Python `needle in hay` (substring containment). -/
def strContains (hay needle : String) : Bool :=
  strContainsList hay.toList needle.toList

mutual

/-- `_coerce_text_value` (chat_service.py:104-128): normalizes heterogeneous
text representations from provider payloads to an optional string.  `none`
models Python `None`; list parts that coerce to `None` or `""` are dropped;
dict/object inputs probe the `value`, `text`, `content` fields in that order
and fall back to the trimmed generic string rendering.  The probe loop's
`nested is None: continue` coincides with coercing `None` (both skip), so
`probeField` fuses the field lookup with the truthy-coercion check; see
`probeField_eq_lookup` below. -/
def _coerce_text_value (v : Value) : Option String :=
  match v with
  | .vnone => none
  | .vstr s => some s
  | .vint n => some (toString n)
  | .vlist xs =>
      let parts := coerceParts xs
      if parts.isEmpty then none else some (String.intercalate "\n" parts)
  | .vdict fields =>
      match probeField fields "value" with
      | some s => some s
      | none =>
      match probeField fields "text" with
      | some s => some s
      | none =>
      match probeField fields "content" with
      | some s => some s
      | none =>
          let t := pyStrip (pyStr (.vdict fields))
          if t = "" then none else some t
  | .vobj fields r =>
      match probeField fields "value" with
      | some s => some s
      | none =>
      match probeField fields "text" with
      | some s => some s
      | none =>
      match probeField fields "content" with
      | some s => some s
      | none =>
          let t := pyStrip (pyStr (.vobj fields r))
          if t = "" then none else some t

/-- The list comprehension of `_coerce_text_value`: coerce each element and
keep the truthy (non-`None`, non-empty) parts. -/
def coerceParts (xs : VList) : List String :=
  match xs with
  | .nil => []
  | .cons v rest =>
      match _coerce_text_value v with
      | some s => if s = "" then coerceParts rest else s :: coerceParts rest
      | none => coerceParts rest

/-- One iteration of the `for key in ("value", "text", "content")` probe of
`_coerce_text_value`: the first field named `key`, coerced, when truthy. -/
def probeField (fields : FList) (key : String) : Option String :=
  match fields with
  | .nil => none
  | .cons k v rest =>
      if k = key then
        match _coerce_text_value v with
        | some s => if s = "" then none else some s
        | none => none
      else probeField rest key

end

/-- The recurring `x = _coerce_text_value(...); if x:` pattern: the coercion
when truthy (non-`None` and non-empty), otherwise nothing. -/
def truthyCoerce (v : Value) : Option String :=
  match _coerce_text_value v with
  | some s => if s = "" then none else some s
  | none => none

/-- `probeField` is exactly the source's `_get_from_obj` lookup followed by
the truthy-coercion check (a `None` lookup result and a falsy coercion are
both skips). -/
theorem probeField_eq_lookup : ∀ (fields : FList) (key : String),
    probeField fields key = truthyCoerce (lookupVal fields key)
  | .nil, _ => rfl
  | .cons k v rest, key => by
      by_cases h : k = key
      · simp [probeField, lookupVal, truthyCoerce, h]
      · simp [probeField, lookupVal, h, probeField_eq_lookup rest key]

/-- A raised `fastapi.HTTPException` (status code and detail). -/
structure HErr where
  statusCode : Nat
  detail : String
deriving DecidableEq

/-- `_is_empty_openai_http_error` (chat_service.py:228-233): a 502 whose detail
contains `"OpenAI returned empty response"` (Python `in`, i.e. substring). -/
def _is_empty_openai_http_error (e : HErr) : Bool :=
  e.statusCode == 502 && strContains e.detail "OpenAI returned empty response"

/-- `_ASSISTANT_FALLBACK_MESSAGE` (chat_service.py:72-74). -/
def _ASSISTANT_FALLBACK_MESSAGE : String :=
  "죄송합니다. 지금은 답변을 생성할 수 없어요. 잠시 후 다시 시도해주세요."

/-- `_RESPONSES_ONLY_PREFIXES` (chat_service.py:64-70). -/
def _RESPONSES_ONLY_MODEL_STARTS : List String :=
  ["gpt-4.1", "gpt-5-mini", "o4", "o5", "o1"]

/-- `_should_use_responses_api` (chat_service.py:131-134): lowercased model id
starts with one of the configured model-family strings. -/
def _should_use_responses_api (model : String) : Bool :=
  _RESPONSES_ONLY_MODEL_STARTS.any (fun p => strStarts (pyLower model) p)

/-- One entry of the Chat Completions message array: a role/content pair. -/
structure OAIMsg where
  role : String
  content : String
deriving DecidableEq

/-- One entry of the Responses API input array after
`_format_messages_for_responses`: the single content block's type and text. -/
structure RespInMsg where
  role : String
  contentType : String
  text : String
deriving DecidableEq

/-- `_format_messages_for_responses` (chat_service.py:137-160): assistant
messages become `output_text` blocks, every other role `input_text`. -/
def _format_messages_for_responses (messages : List OAIMsg) : List RespInMsg :=
  messages.map (fun m =>
    ⟨m.role, if m.role = "assistant" then "output_text" else "input_text", m.content⟩)

/-- `_get_incomplete_reason` (chat_service.py:241-247). -/
def _get_incomplete_reason (resp : Value) : Option String :=
  let incomplete := _get_from_obj resp "incomplete_details"
  if pyTruthy incomplete then
    let reason := _get_from_obj incomplete "reason"
    if pyTruthy reason then some (pyStr reason) else none
  else none

/-- The `if x and not isinstance(x, list): x = [x]` normalization applied to
`outputs` and `contents` before iteration; the argument is always either a
list or the truthy survivor of an `or` chain whose last operand is `[]`. -/
def asPyList (v : Value) : List Value :=
  match v with
  | .vlist xs => xs.toList
  | w => if pyTruthy w then [w] else []

/-- Python `v in {s₁, s₂}` where the sᵢ are string literals. -/
def isStrIn (v : Value) (ss : List String) : Bool :=
  match v with
  | .vstr s => ss.contains s
  | _ => false

/-- Inner loop of `_extract_text_from_responses` (chat_service.py:186-194):
scan content blocks of `text`/`output_text` type, probing their `text` then
`content` fields. -/
def scanContents : List Value → Option String
  | [] => none
  | content :: rest =>
      if isStrIn (_get_from_obj content "type") ["text", "output_text"] then
        match truthyCoerce (_get_from_obj content "text") with
        | some t => some t
        | none =>
            match truthyCoerce (_get_from_obj content "content") with
            | some t => some t
            | none => scanContents rest
      else scanContents rest

/-- Outer loop of `_extract_text_from_responses` (chat_service.py:180-194):
scan `message`/`output_text`-typed outputs. -/
def scanOutputs : List Value → Option String
  | [] => none
  | output :: rest =>
      if isStrIn (_get_from_obj output "type") ["message", "output_text"] then
        match scanContents (asPyList (pyOr (_get_from_obj output "content") (.vlist .nil))) with
        | some t => some t
        | none => scanOutputs rest
      else scanOutputs rest

/-- `_extract_text_from_responses` (chat_service.py:163-205).  `model_dump` is
the identity here (the payload is already plain data), so `resp_data = resp`;
the raised empty-response `HTTPException` becomes the `.error` case. -/
def _extract_text_from_responses (resp : Value) : Except HErr String :=
  let outputs :=
    asPyList (pyOr (_get_from_obj resp "output")
      (pyOr (_get_from_obj resp "outputs") (.vlist .nil)))
  match scanOutputs outputs with
  | some t => .ok t
  | none =>
      match truthyCoerce (_get_from_obj resp "output_text") with
      | some t => .ok t
      | none => .error ⟨502, "OpenAI returned empty response"⟩

/-- `_extract_text_from_chat_choice` (chat_service.py:208-225). -/
def _extract_text_from_chat_choice (choice : Option Value) : Option String :=
  match choice with
  | none => none
  | some choice =>
      let message := pyOr (_get_from_obj choice "message") choice
      match truthyCoerce (_get_from_obj message "content") with
      | some t => some t
      | none =>
          let delta := pyOr (_get_from_obj message "delta") (_get_from_obj choice "delta")
          truthyCoerce delta

/-- The environment-driven Responses token band
(`_OPENAI_RESPONSES_MIN_OUTPUT_TOKENS` / `_OPENAI_RESPONSES_MAX_OUTPUT_TOKENS`,
chat_service.py:42-47; defaults 1024 / 4096). -/
structure OpenAICfg where
  respMinOutputTokens : Nat
  respMaxOutputTokens : Nat
deriving DecidableEq

/-- The OpenAI SDK client, abstracted to the two calls the service makes:
`client.responses.create(model, input, max_output_tokens)` returning the raw
response payload, and `client.chat.completions.create(...)` whose response is
represented by its `choices` list. -/
structure OpenAIClient where
  responsesCreate : String → List RespInMsg → Nat → Value
  chatCompletionsCreate : String → List OAIMsg → ℚ → Nat → List Value

/-- Tail of the Responses branch of `_call_openai_chat`
(chat_service.py:426-435): extract text; the empty-response 502 is converted
into the fallback string, any other error propagates; a falsy extracted text
also falls back. -/
def finishResponses (resp : Value) : Except HErr String :=
  match _extract_text_from_responses resp with
  | .error e =>
      if _is_empty_openai_http_error e then .ok _ASSISTANT_FALLBACK_MESSAGE else .error e
  | .ok text => if text = "" then .ok _ASSISTANT_FALLBACK_MESSAGE else .ok text

/-- `_call_openai_chat` (chat_service.py:373-462), instrumented with the list
of `max_output_tokens` values passed to `responses.create` (empty for the
legacy protocol).  `int(cap * 1.5)` on a nonnegative int is exactly
`cap * 3 / 2` in `Nat` (the product is exactly representable and truncation
toward zero is floor). -/
def _call_openai_chat_traced (cfg : OpenAICfg) (client : OpenAIClient)
    (messages : List OAIMsg) (model : String) (temperature : ℚ) (maxTokens : Nat) :
    Except HErr String × List Nat :=
  if _should_use_responses_api model then
    let responsesInput := _format_messages_for_responses messages
    let cap0 := min (max maxTokens cfg.respMinOutputTokens) cfg.respMaxOutputTokens
    let resp0 := client.responsesCreate model responsesInput cap0
    if _get_incomplete_reason resp0 = some "max_output_tokens"
        ∧ cap0 < cfg.respMaxOutputTokens then
      let retryTokens := min cfg.respMaxOutputTokens (max (cap0 * 3 / 2) (cap0 + 256))
      (finishResponses (client.responsesCreate model responsesInput retryTokens),
        [cap0, retryTokens])
    else
      (finishResponses resp0, [cap0])
  else
    let choices := client.chatCompletionsCreate model messages temperature maxTokens
    match _extract_text_from_chat_choice choices.head? with
    | some t => (if t = "" then .ok _ASSISTANT_FALLBACK_MESSAGE else .ok t, [])
    | none => (.ok _ASSISTANT_FALLBACK_MESSAGE, [])

/-- `_call_openai_chat` proper: the traced result without the trace. -/
def _call_openai_chat (cfg : OpenAICfg) (client : OpenAIClient)
    (messages : List OAIMsg) (model : String) (temperature : ℚ) (maxTokens : Nat) :
    Except HErr String :=
  (_call_openai_chat_traced cfg client messages model temperature maxTokens).1

/-- `RoleEnum` of `app.models.models` as used here: message author role. -/
inductive RoleEnum where
  | user
  | assistant
deriving DecidableEq

/-- `.value` of a role (the strings compared in `_extract_latest_user_text`). -/
def roleValue : RoleEnum → String
  | .user => "user"
  | .assistant => "assistant"

/-- `TrashEnum` of `app.models.models`: `in_` marks a room in the trash,
`out` an active room. -/
inductive TrashEnum where
  | in_
  | out
deriving DecidableEq

/-- Modelled from the spec: `app.models.models` is not under `src/`; spec §3
gives the trash states as the two values `in` | `out`, so `.value` renders
`in_` as `"in"` and `out` as `"out"` (used by the `update` validity check). -/
def trashValue : TrashEnum → String
  | .in_ => "in"
  | .out => "out"

/-- The enum member for a validated trash-state string. -/
def trashOfString (s : String) : TrashEnum :=
  if s = "in" then .in_ else .out

/-- A `Chat` row (chat room). -/
structure Chat where
  chat_id : Nat
  user_id : Nat
  title : String
  stock_code : Option String
  trash_can : TrashEnum
  lastchat_at : Nat
deriving DecidableEq

/-- A `Message` row. -/
structure Message where
  messages_id : Nat
  chat_id : Nat
  user_id : Nat
  role : RoleEnum
  content : String
  created_at : Nat
deriving DecidableEq

/-- `MessageCreate` request schema. -/
structure MessageCreate where
  content : String
deriving DecidableEq

/-- `ChatCreate` request schema. -/
structure ChatCreate where
  title : String
  stock_code : Option String
deriving DecidableEq

/-- `ChatUpdate` request schema: optional title, optional trash-state string. -/
structure ChatUpdate where
  title : Option String
  trash_can : Option String
deriving DecidableEq

/-- The request-scoped database session, as pure state: the two tables,
fresh primary keys, and a clock supplying `func.now()`. -/
structure DB where
  chats : List Chat
  messages : List Message
  next_chat_id : Nat
  next_message_id : Nat
  now : Nat
deriving DecidableEq

/-- Python truthiness of an optional string (`None` and `""` are falsy). -/
def optTruthy : Option String → Bool
  | some s => s ≠ ""
  | none => false

/-- `_ensure_room_ownership` (chat_service.py:269-281): first row with the
given id owned by the user, else 404. -/
def _ensure_room_ownership (db : DB) (roomId userId : Nat) : Except HErr Chat :=
  match (db.chats.filter (fun c => c.chat_id == roomId && c.user_id == userId)).head? with
  | some chat => .ok chat
  | none => .error ⟨404, "Chat room not found or permission denied"⟩

/-- Stable insertion into a list ascending by `created_at` (the new element
goes after existing equal keys). -/
def insertAscByCreatedAt (m : Message) : List Message → List Message
  | [] => [m]
  | x :: xs =>
      if m.created_at < x.created_at then m :: x :: xs else x :: insertAscByCreatedAt m xs

/-- `ORDER BY created_at ASC` as a stable sort. -/
def sortByCreatedAtAsc (l : List Message) : List Message :=
  l.foldl (fun acc m => insertAscByCreatedAt m acc) []

/-- `_load_chat_history` (chat_service.py:284-292): filter the room's
messages, order by creation time ascending, and take the first `limit` rows
(`.limit(limit)` cuts the ascending sequence at its start). -/
def _load_chat_history (db : DB) (roomId : Nat) (limit : Nat := 30) : List Message :=
  (sortByCreatedAtAsc (db.messages.filter (fun m => m.chat_id == roomId))).take limit

/-- `_convert_history_to_openai_messages` (chat_service.py:295-305). -/
def _convert_history_to_openai_messages (history : List Message)
    (system_prompt : Option String) : List OAIMsg :=
  (if optTruthy system_prompt then [⟨"system", system_prompt.getD ""⟩] else [])
    ++ history.map (fun m => ⟨roleValue m.role, m.content⟩)

/-- `_extract_latest_user_text` (chat_service.py:308-314). -/
def _extract_latest_user_text (history : List Message) : Option String :=
  (history.reverse.find? (fun m => roleValue m.role == "user")).map (·.content)

/-- One retrieved news document (`{title, published_at, content}` dict);
fields are optional to reflect `doc.get(...)`. -/
structure NewsDoc where
  title : Option String
  published_at : Option String
  content : Option String
deriving DecidableEq

/-- Python `doc.get(key) or default`: the field when truthy, else the default. -/
def tget (o : Option String) (d : String) : String :=
  match o with
  | some s => if s = "" then d else s
  | none => d

/-- `re.sub(r"\s+", " ", s)`: each maximal whitespace run becomes one space.
The flag records whether the previous character was part of a run. -/
def collapseWsGo : Bool → List Char → List Char
  | _, [] => []
  | prevWs, c :: rest =>
      if isPyWs c then
        if prevWs then collapseWsGo true rest else ' ' :: collapseWsGo true rest
      else c :: collapseWsGo false rest

/-- `re.sub(r"\s+", " ", s)` on strings. -/
def collapseWs (s : String) : String :=
  String.mk (collapseWsGo false s.toList)

/-- The RAG collaborators and tunables of chat_service.py:49-60: the enable
flag (`_ENABLE_RAG_NEWS`, already folded with news-DB availability), `top_k`,
the summary item limit, the similarity threshold, and
`rag_service.similarity_search` itself — `.error` models any exception from
the retrieval stack, which the caller swallows. -/
structure RagEnv where
  enabled : Bool
  topK : Nat
  summaryLimit : Nat
  threshold : ℚ
  search : String → Nat → ℚ → Except String (List NewsDoc)

/-- The `for query in queries: docs = search(query); if docs: break` loop:
first query with a non-empty result wins; if all are empty the last (empty)
result stands; an exception aborts the whole loop. -/
def runSimilarityQueries (env : RagEnv) : List String → Except String (List NewsDoc)
  | [] => .ok []
  | [q] => env.search q env.topK env.threshold
  | q :: rest => do
      let docs ← env.search q env.topK env.threshold
      if docs.isEmpty then runSimilarityQueries env rest else .ok docs

/-- `_build_rag_news_summary` (chat_service.py:317-370): disabled, absent
stock code, any retrieval exception, or an empty result all yield
`(none, [])`; otherwise the summary text over the first `max_items` documents
plus that document slice. -/
def _build_rag_news_summary (env : RagEnv) (stock_code : Option String)
    (latest_user_text : Option String) (max_items : Nat) :
    Option String × List NewsDoc :=
  if ¬ env.enabled ∨ ¬ optTruthy stock_code then (none, [])
  else
    let code := stock_code.getD ""
    let queries :=
      (if optTruthy latest_user_text then [latest_user_text.getD ""] else []) ++ [code]
    match runSimilarityQueries env queries with
    | .error _ => (none, [])
    | .ok docs =>
        if docs.isEmpty then (none, [])
        else
          let sel := docs.take max_items
          let lines := (List.enumFrom 1 sel).map (fun p =>
            let title := tget p.2.title "제목 없음"
            let published := tget p.2.published_at "발행일 미상"
            let snippet0 := pyStrip (collapseWs (tget p.2.content ""))
            let snippet :=
              if snippet0.length > 200 then snippet0.take 200 ++ "..." else snippet0
            toString p.1 ++ ". " ++ title ++ " (" ++ published ++ "): " ++ snippet)
          (some ("[뉴스 요약]\n" ++ code
              ++ " 관련 최신 기사에서 추출한 핵심 내용입니다. 필요한 경우 아래 정보를 참고해 답변하세요.\n"
              ++ String.intercalate "\n" lines),
            sel)

/-- Everything `generate_and_save_assistant_reply` reads from module-level
configuration and collaborators: the OpenAI call configuration and client
(with the env-default model, temperature and token cap of
chat_service.py:39-41) and the RAG environment. -/
structure ChatEnv where
  cfg : OpenAICfg
  client : OpenAIClient
  model : String
  temperature : ℚ
  maxTokens : Nat
  rag : RagEnv

/-- `save_user_message` (chat_service.py:465-481): ownership check, then the
user message row is inserted and the room's `lastchat_at` updated; a failed
check raises before anything is written. -/
def save_user_message (db : DB) (roomId userId : Nat) (message : MessageCreate) :
    Except HErr Message × DB :=
  match _ensure_room_ownership db roomId userId with
  | .error e => (.error e, db)
  | .ok _ =>
      let msg : Message :=
        ⟨db.next_message_id, roomId, userId, .user, message.content, db.now⟩
      (.ok msg,
        { chats := db.chats.map (fun c =>
            if c.chat_id == roomId then { c with lastchat_at := db.now } else c),
          messages := db.messages ++ [msg],
          next_chat_id := db.next_chat_id,
          next_message_id := db.next_message_id + 1,
          now := db.now + 1 })

/-- `l.insert(idx, a)` on the OpenAI message list. -/
def insertAt (n : Nat) (a : OAIMsg) (l : List OAIMsg) : List OAIMsg :=
  l.take n ++ a :: l.drop n

/-- `generate_and_save_assistant_reply` (chat_service.py:484-524): ownership
check, history load, optional RAG summary insertion, provider call, optional
references footer, then the assistant row is inserted.  A provider error
propagates with the session state as it was (the assistant insert and
`lastchat_at` update happen only after a successful call). -/
def generate_and_save_assistant_reply (env : ChatEnv) (db : DB)
    (roomId userId : Nat) (system_prompt : Option String) :
    Except HErr Message × DB :=
  match _ensure_room_ownership db roomId userId with
  | .error e => (.error e, db)
  | .ok chat =>
      let history := _load_chat_history db roomId
      let latest := _extract_latest_user_text history
      let (ragSummary, newsDocs) :=
        _build_rag_news_summary env.rag chat.stock_code latest env.rag.summaryLimit
      let oaiMessages := _convert_history_to_openai_messages history system_prompt
      let oaiMessages :=
        if optTruthy ragSummary then
          insertAt (if optTruthy system_prompt then 1 else 0)
            ⟨"system", ragSummary.getD ""⟩ oaiMessages
        else oaiMessages
      match _call_openai_chat env.cfg env.client oaiMessages env.model
          env.temperature env.maxTokens with
      | .error e => (.error e, db)
      | .ok text =>
          let assistantText :=
            if newsDocs.isEmpty then text
            else
              text ++ "\n\n[참고 뉴스]\n"
                ++ String.join ((List.enumFrom 1 newsDocs).map (fun p =>
                    toString p.1 ++ ". " ++ tget p.2.title "제목 없음"
                      ++ " (" ++ tget p.2.published_at "날짜 미상" ++ ")\n"))
          let amsg : Message :=
            ⟨db.next_message_id, roomId, userId, .assistant, assistantText, db.now⟩
          (.ok amsg,
            { chats := db.chats.map (fun c =>
                if c.chat_id == roomId then { c with lastchat_at := db.now } else c),
              messages := db.messages ++ [amsg],
              next_chat_id := db.next_chat_id,
              next_message_id := db.next_message_id + 1,
              now := db.now + 1 })

/-- `create_message_and_reply` (chat_service.py:527-541): persist the user
message, then generate and persist the assistant reply, returning the
`(user_message, assistant_message)` pair — and only that pair. -/
def create_message_and_reply (env : ChatEnv) (db : DB) (roomId userId : Nat)
    (message : MessageCreate) (system_prompt : Option String) :
    Except HErr (Message × Message) × DB :=
  match save_user_message db roomId userId message with
  | (.error e, db1) => (.error e, db1)
  | (.ok userMsg, db1) =>
      match generate_and_save_assistant_reply env db1 roomId userId system_prompt with
      | (.error e, db2) => (.error e, db2)
      | (.ok amsg, db2) => (.ok (userMsg, amsg), db2)

/-- `list_user_chat_rooms` (chat_service.py:560-562). -/
def list_user_chat_rooms (db : DB) (userId : Nat) : List Chat :=
  db.chats.filter (fun c => c.user_id == userId)

/-- `create_chat_room_for_user` (chat_service.py:565-594).  Note the dedup
lookup filters `Chat.trash_can == TrashEnum.in_.value` — i.e. it matches
TRASHED rooms.  The new row's `trash_can` default is modelled from the spec
(§3: rooms are created active; `models.py` is not under `src/`). -/
def create_chat_room_for_user (db : DB) (userId : Nat) (chat_in : ChatCreate) :
    Chat × DB :=
  let existing :=
    if optTruthy chat_in.stock_code then
      (db.chats.filter (fun c =>
        c.user_id == userId && c.stock_code == chat_in.stock_code
          && decide (c.trash_can = TrashEnum.in_))).head?
    else none
  match existing with
  | some chat => (chat, db)
  | none =>
      let newChat : Chat :=
        ⟨db.next_chat_id, userId, chat_in.title, chat_in.stock_code,
          TrashEnum.out, db.now⟩
      (newChat,
        { db with chats := db.chats ++ [newChat], next_chat_id := db.next_chat_id + 1 })

/-- `get_chat_room_by_stock_for_user` (chat_service.py:597-615).  The filter
is `Chat.trash_can == TrashEnum.in_.value`: it matches only TRASHED rooms. -/
def get_chat_room_by_stock_for_user (db : DB) (userId : Nat) (stock_code : String) :
    Except HErr Chat :=
  match (db.chats.filter (fun c =>
      c.user_id == userId && c.stock_code == some stock_code
        && decide (c.trash_can = TrashEnum.in_))).head? with
  | some chat => .ok chat
  | none => .error ⟨404, "Chat room for stock not found"⟩

/-- `update_chat_room_for_user` (chat_service.py:618-654): ownership-scoped
lookup, optional title update (trimmed, non-empty), optional trash-state
update (validated against the two enum values), no write when nothing was
provided. -/
def update_chat_room_for_user (db : DB) (roomId userId : Nat) (chat_in : ChatUpdate) :
    Except HErr Chat × DB :=
  match (db.chats.filter (fun c => c.chat_id == roomId && c.user_id == userId)).head? with
  | none => (.error ⟨404, "Chat room not found or permission denied"⟩, db)
  | some chat =>
      let afterTitle : Except HErr (Chat × Bool) :=
        match chat_in.title with
        | some t =>
            let nt := pyStrip t
            if nt = "" then .error ⟨400, "Title must not be empty"⟩
            else .ok ({ chat with title := nt }, true)
        | none => .ok (chat, false)
      match afterTitle with
      | .error e => (.error e, db)
      | .ok (chat1, updated1) =>
          let afterTrash : Except HErr (Chat × Bool) :=
            match chat_in.trash_can with
            | some v =>
                if v = trashValue TrashEnum.in_ ∨ v = trashValue TrashEnum.out then
                  .ok ({ chat1 with trash_can := trashOfString v }, true)
                else .error ⟨400, "Invalid trash_can value"⟩
            | none => .ok (chat1, updated1)
          match afterTrash with
          | .error e => (.error e, db)
          | .ok (chat2, updated) =>
              if updated then
                (.ok chat2,
                  { db with chats := db.chats.map (fun c =>
                      if c.chat_id == roomId then chat2 else c) })
              else (.ok chat2, db)

/-- A character admitted by `_STOCK_CODE_PATTERN = ^[A-Z0-9.\-]{1,20}$`
(chat_service.py:62). -/
def isAllowedCodeChar (c : Char) : Bool :=
  ('A' ≤ c && c ≤ 'Z') || ('0' ≤ c && c ≤ '9') || c = '.' || c = '-'

/-- `_STOCK_CODE_PATTERN.match(s)` as a Boolean predicate. -/
def stockCodeMatches (s : String) : Bool :=
  decide (1 ≤ s.length) && decide (s.length ≤ 20) && s.toList.all isAllowedCodeChar

/-- `re.sub(r"\s+", "", s)`: remove every whitespace character. -/
def stripPyWs (s : String) : String :=
  String.mk (s.toList.filter (fun c => ¬ isPyWs c))

/-- `normalize_stock_code` (chat_service.py:658-670).  The input is typed
`str` at every call site, so the `raw_code is None` guard is not modelled. -/
def normalize_stock_code (raw_code : String) : Except String String :=
  let normalized := pyUpper (stripPyWs raw_code)
  if normalized = "" then .error "stock_code is empty"
  else if normalized.length > 20 then .error "stock_code must be 20 chars or fewer"
  else if ¬ stockCodeMatches normalized then
    .error "stock_code contains invalid characters"
  else .ok normalized

/-- `get_active_chat_by_stock` (chat_service.py:673-683): first row for
(user, stock) with `trash_can == TrashEnum.out.value`. -/
def get_active_chat_by_stock (db : DB) (userId : Nat) (stock_code : String) :
    Option Chat :=
  (db.chats.filter (fun c =>
    c.user_id == userId && c.stock_code == some stock_code
      && decide (c.trash_can = TrashEnum.out))).head?

/-- `ORDER BY chat_id DESC ... .first()`: the row with the maximal `chat_id`
(ids are the primary key, so ties cannot arise; on a tie the earlier row is
kept). -/
def maxByChatId : List Chat → Option Chat
  | [] => none
  | c :: rest =>
      match maxByChatId rest with
      | none => some c
      | some m => if m.chat_id > c.chat_id then some m else some c

/-- `upsert_chat_by_stock` (chat_service.py:686-737): return the active room
if one exists; else restore the most recent trashed room (clearing the trash
flag and optionally replacing the title); else insert a fresh active room
with the placeholder title.  The `IntegrityError` catch handles a concurrent
duplicate insert; in this sequential model the insert cannot conflict, so
that branch is unreachable and not modelled. -/
def upsert_chat_by_stock (db : DB) (userId : Nat) (stock_code : String)
    (title : Option String) : (Chat × Bool) × DB :=
  match get_active_chat_by_stock db userId stock_code with
  | some existing => ((existing, true), db)
  | none =>
      let trashed := maxByChatId (db.chats.filter (fun c =>
        c.user_id == userId && c.stock_code == some stock_code
          && decide (c.trash_can = TrashEnum.in_)))
      match trashed with
      | some tr =>
          let tr1 := { tr with trash_can := TrashEnum.out }
          let tr2 :=
            if optTruthy title then
              let nt := pyStrip (title.getD "")
              if nt = "" then tr1 else { tr1 with title := nt }
            else tr1
          ((tr2, false),
            { db with chats := db.chats.map (fun c =>
                if c.chat_id == tr.chat_id then tr2 else c) })
      | none =>
          let room_title :=
            if optTruthy title then
              let nt := pyStrip (title.getD "")
              if nt = "" then stock_code ++ " 채팅" else nt
            else stock_code ++ " 채팅"
          let newChat : Chat :=
            ⟨db.next_chat_id, userId, room_title, some stock_code,
              TrashEnum.out, db.now⟩
          ((newChat, false),
            { db with chats := db.chats ++ [newChat],
                      next_chat_id := db.next_chat_id + 1 })

/-! ## Fixtures and claims -/

/-- A room for user 1 and stock AAPL, active (trash state `out`). -/
def aaplActive : Chat := ⟨1, 1, "AAPL 채팅", some "AAPL", .out, 0⟩

/-- A second room for the same (user, stock), in the trash. -/
def aaplTrashed : Chat := ⟨2, 1, "old AAPL", some "AAPL", .in_, 0⟩

/-- 31 messages in room 1 with ascending creation times 0..30. -/
def c2_msgs : List Message :=
  (List.range 31).map (fun i => ⟨i, 1, 1, .user, "m", i⟩)

/-- A session whose room 1 holds the 31 messages of `c2_msgs`. -/
def c2_db : DB := ⟨[aaplActive], c2_msgs, 3, 31, 100⟩

/-- C2: context assembly is claimed to load the up-to-limit MOST RECENT
messages oldest-first.  On a room holding 31 messages with creation times
0..30 and the default limit 30, `_load_chat_history` instead returns the
messages created at 0..29 — the first thirty in ascending order — and drops
the newest message (creation time 30), where the claimed behaviour would
return the messages created at 1..30. -/
theorem c2_load_chat_history_takes_oldest :
    (_load_chat_history c2_db 1).map (·.messages_id) = List.range 30
      ∧ (_load_chat_history c2_db 1).map (·.messages_id) ≠ (List.range 31).drop 1 := by
  constructor
  · decide
  · decide

/-- A session containing only the active AAPL room. -/
def c3_db_active_only : DB := ⟨[aaplActive], [], 3, 0, 0⟩

/-- A session containing the active AAPL room and a trashed one. -/
def c3_db_both : DB := ⟨[aaplActive, aaplTrashed], [], 3, 0, 0⟩

/-- A session containing only the trashed AAPL room. -/
def c3_db_trashed_only : DB := ⟨[aaplTrashed], [], 3, 0, 0⟩

/-- C3: the claim says every (user, stock) lookup meant to return the active
room filters on trash state `out`.  In the code, `get_chat_room_by_stock_for_user`
and the dedup lookup of `create_chat_room_for_user` filter on trash state
`in` instead: with only an active AAPL room present the by-stock query 404s;
with a trashed room present the trashed room is returned / deduped against;
only `get_active_chat_by_stock` uses the `out` filter. -/
theorem c3_stock_lookups_filter_trashed :
    get_chat_room_by_stock_for_user c3_db_active_only 1 "AAPL"
        = .error ⟨404, "Chat room for stock not found"⟩
      ∧ get_chat_room_by_stock_for_user c3_db_both 1 "AAPL" = .ok aaplTrashed
      ∧ aaplTrashed.trash_can = TrashEnum.in_
      ∧ (create_chat_room_for_user c3_db_trashed_only 1 ⟨"new title", some "AAPL"⟩).1
          = aaplTrashed
      ∧ get_active_chat_by_stock c3_db_both 1 "AAPL" = some aaplActive := by
  refine ⟨rfl, rfl, rfl, rfl, rfl⟩

/-- C4 counterexample: the claim says `coerceText` returns null on a
whitespace-only string and on an empty object.  The code returns a
string-typed input unchanged (so `" "` comes back as `" "`), and an empty
dict falls through to its generic rendering `"{}"`. -/
theorem c4_counterexample :
    _coerce_text_value (.vstr " ") = some " "
      ∧ _coerce_text_value (.vdict .nil) = some "\x7b\x7d" := by
  constructor
  · decide
  · decide

/-- C4 (amended): `coerceText` returns null on an empty sequence; a
whitespace-only string is returned unchanged (not null); an empty dict
yields its generic rendering `"{}"` (not null); and `["a", "", "b"]` yields
`"a\nb"` (non-empty coerced elements joined with newlines, empties
dropped). -/
theorem c4_coerce_text_normalization :
    _coerce_text_value (.vlist .nil) = none
      ∧ _coerce_text_value (.vdict .nil) = some "\x7b\x7d"
      ∧ (∀ s : String, s ≠ "" → s.toList.all isPyWs = true →
          _coerce_text_value (.vstr s) = some s)
      ∧ _coerce_text_value (Value.listOf [.vstr "a", .vstr "", .vstr "b"]) = some "a\nb" := by
  refine ⟨by decide, by decide, ?_, by decide⟩
  intro s _ _
  rfl

/-- C4 witness: the amended claim applied to the whitespace-only string `" "`. -/
theorem c4_witness : _coerce_text_value (.vstr " ") = some " " :=
  c4_coerce_text_normalization.2.2.1 " " (by decide) (by decide)

/-- Bridge a `Char` comparison to its code point. -/
theorem char_le_toNat {a b : Char} (h : a ≤ b) : a.toNat ≤ b.toNat := by
  rw [Char.le_def, UInt32.le_def, BitVec.le_def] at h
  exact h

/-- A character admitted by the stock-code pattern is neither whitespace nor
a lowercase letter. -/
theorem allowedCodeChar_facts (c : Char) (h : isAllowedCodeChar c = true) :
    isPyWs c = false ∧ ¬ ('a' ≤ c ∧ c ≤ 'z') := by
  constructor
  · cases hw : isPyWs c
    · rfl
    · exfalso
      simp only [isPyWs, Bool.or_eq_true, decide_eq_true_eq] at hw
      rcases hw with ((((rfl | rfl) | rfl) | rfl) | rfl) | rfl <;> revert h <;> decide
  · rintro ⟨hl, hu⟩
    have hl' := char_le_toNat hl
    rw [show ('a').toNat = 97 from rfl] at hl'
    simp only [isAllowedCodeChar, Bool.or_eq_true, Bool.and_eq_true,
      decide_eq_true_eq] at h
    rcases h with ((⟨h1, h2⟩ | ⟨h1, h2⟩) | rfl) | rfl
    · have h2' := char_le_toNat h2
      rw [show ('Z').toNat = 90 from rfl] at h2'
      omega
    · have h2' := char_le_toNat h2
      rw [show ('9').toNat = 57 from rfl] at h2'
      omega
    · exact absurd hl' (by decide)
    · exact absurd hl' (by decide)

/-- C10: whenever `normalize_stock_code` succeeds, the returned code is the
whitespace-stripped, upper-cased form of the input and every character of it
is in the pattern alphabet — in particular it contains no whitespace and no
lowercase letter; and whenever the normalized form is empty, longer than 20
characters, or contains a character outside `A-Z0-9.-`, it fails with a
validation error. -/
theorem c10_normalize_stock_code (raw : String) :
    (∀ s, normalize_stock_code raw = .ok s →
        s = pyUpper (stripPyWs raw)
          ∧ ∀ c ∈ s.toList,
              isAllowedCodeChar c = true ∧ isPyWs c = false ∧ ¬ ('a' ≤ c ∧ c ≤ 'z'))
      ∧ ((pyUpper (stripPyWs raw) = ""
            ∨ 20 < (pyUpper (stripPyWs raw)).length
            ∨ ¬ (pyUpper (stripPyWs raw)).toList.all isAllowedCodeChar = true) →
          ∃ e, normalize_stock_code raw = .error e) := by
  constructor
  · intro s hs
    simp only [normalize_stock_code] at hs
    split_ifs at hs with h1 h2 h3
    all_goals simp at hs
    subst hs
    refine ⟨rfl, ?_⟩
    intro c hc
    have hmatch : stockCodeMatches (pyUpper (stripPyWs raw)) = true := by
      simpa using h3
    have hall : (pyUpper (stripPyWs raw)).toList.all isAllowedCodeChar = true := by
      simp only [stockCodeMatches, Bool.and_eq_true] at hmatch
      exact hmatch.2
    have hc' := (List.all_eq_true.mp hall) c hc
    exact ⟨hc', (allowedCodeChar_facts c hc').1, (allowedCodeChar_facts c hc').2⟩
  · intro hbad
    simp only [normalize_stock_code]
    by_cases h1 : pyUpper (stripPyWs raw) = ""
    · exact ⟨_, by rw [if_pos h1]⟩
    · rw [if_neg h1]
      by_cases h2 : (pyUpper (stripPyWs raw)).length > 20
      · exact ⟨_, by rw [if_pos h2]⟩
      · rw [if_neg h2]
        by_cases h3 : stockCodeMatches (pyUpper (stripPyWs raw)) = true
        · exfalso
          rcases hbad with h | h | h
          · exact h1 h
          · exact h2 h
          · refine h ?_
            simp only [stockCodeMatches, Bool.and_eq_true] at h3
            exact h3.2
        · exact ⟨_, by rw [if_pos h3]⟩

/-- C10 witness: `"aa pl"` (lowercase with internal whitespace) normalizes to
`"AAPL"`, every character of which is in the pattern alphabet; and the
all-whitespace input `"  "` (empty normalized form) fails. -/
theorem c10_witness :
    normalize_stock_code "aa pl" = .ok "AAPL"
      ∧ ("AAPL" : String) = pyUpper (stripPyWs "aa pl")
      ∧ (∀ c ∈ ("AAPL" : String).toList, isAllowedCodeChar c = true)
      ∧ ∃ e, normalize_stock_code "  " = .error e := by
  have hok : normalize_stock_code "aa pl" = .ok "AAPL" := rfl
  refine ⟨hok, ?_, ?_, ?_⟩
  · exact ((c10_normalize_stock_code "aa pl").1 "AAPL" hok).1
  · intro c hc
    exact (((c10_normalize_stock_code "aa pl").1 "AAPL" hok).2 c hc).1
  · exact (c10_normalize_stock_code "  ").2 (Or.inl (by decide))

/-- C8: when the room does not exist or belongs to another user,
`create_message_and_reply` fails with the 404 ownership error and the session
is returned exactly as it was — in particular no user message and no
assistant message row was inserted. -/
theorem c8_not_found_persists_nothing (env : ChatEnv) (db : DB)
    (roomId userId : Nat) (message : MessageCreate) (system_prompt : Option String)
    (hno : ∀ c ∈ db.chats, ¬ (c.chat_id = roomId ∧ c.user_id = userId)) :
    create_message_and_reply env db roomId userId message system_prompt
      = (.error ⟨404, "Chat room not found or permission denied"⟩, db) := by
  have hfilter : db.chats.filter
      (fun c => c.chat_id == roomId && c.user_id == userId) = [] := by
    rw [List.filter_eq_nil_iff]
    intro c hc
    have := hno c hc
    simp only [Bool.and_eq_true, beq_iff_eq]
    intro hcontra
    exact this hcontra
  have hown : _ensure_room_ownership db roomId userId
      = .error ⟨404, "Chat room not found or permission denied"⟩ := by
    simp only [_ensure_room_ownership, hfilter, List.head?]
  simp only [create_message_and_reply, save_user_message, hown]

/-- A client whose Responses payloads are empty dicts and whose Chat
Completions responses have no choices. -/
def emptyClient : OpenAIClient :=
  ⟨fun _ _ _ => .vdict .nil, fun _ _ _ _ => []⟩

/-- The RAG environment with retrieval disabled. -/
def ragOff : RagEnv :=
  ⟨false, 12, 4, 0, fun _ _ _ => .ok []⟩

/-- A chat environment with the default model/temperature/token settings and
retrieval disabled. -/
def envEmpty : ChatEnv :=
  ⟨⟨1024, 4096⟩, emptyClient, "gpt-5-mini", 1/5, 512, ragOff⟩

/-- A session whose only room (id 1) belongs to user 2. -/
def c8_db : DB := ⟨[⟨1, 2, "other user room", none, .out, 0⟩], [], 2, 0, 0⟩

/-- C8 witness: user 1 calling into user 2's room 1 gets the 404 and the
session back unchanged. -/
theorem c8_witness :
    create_message_and_reply envEmpty c8_db 1 1 ⟨"hi"⟩ none
      = (.error ⟨404, "Chat room not found or permission denied"⟩, c8_db) :=
  c8_not_found_persists_nothing envEmpty c8_db 1 1 ⟨"hi"⟩ none (by decide)

/-- C6: in the structured protocol, when the first response's incompletion
reason is the max-output-token limit and the cap used was strictly below the
configured ceiling, exactly one retry is issued, with the new cap
`min(ceiling, max(cap * 3/2, cap + 256))` (`int(cap * 1.5)` in integer
arithmetic), and no further call regardless of the retry's outcome; when the
reason is anything else or the cap already equals the ceiling, no retry is
issued at all. -/
theorem c6_structured_single_retry (cfg : OpenAICfg) (client : OpenAIClient)
    (messages : List OAIMsg) (model : String) (temperature : ℚ) (maxTokens : Nat)
    (hmodel : _should_use_responses_api model = true) :
    ((_get_incomplete_reason (client.responsesCreate model
          (_format_messages_for_responses messages)
          (min (max maxTokens cfg.respMinOutputTokens) cfg.respMaxOutputTokens))
        = some "max_output_tokens" →
      min (max maxTokens cfg.respMinOutputTokens) cfg.respMaxOutputTokens
          < cfg.respMaxOutputTokens →
      (_call_openai_chat_traced cfg client messages model temperature maxTokens).2
        = [min (max maxTokens cfg.respMinOutputTokens) cfg.respMaxOutputTokens,
           min cfg.respMaxOutputTokens
             (max (min (max maxTokens cfg.respMinOutputTokens) cfg.respMaxOutputTokens
                     * 3 / 2)
                  (min (max maxTokens cfg.respMinOutputTokens) cfg.respMaxOutputTokens
                     + 256))])
      ∧ ((_get_incomplete_reason (client.responsesCreate model
            (_format_messages_for_responses messages)
            (min (max maxTokens cfg.respMinOutputTokens) cfg.respMaxOutputTokens))
          ≠ some "max_output_tokens"
        ∨ min (max maxTokens cfg.respMinOutputTokens) cfg.respMaxOutputTokens
            = cfg.respMaxOutputTokens) →
        (_call_openai_chat_traced cfg client messages model temperature maxTokens).2
          = [min (max maxTokens cfg.respMinOutputTokens) cfg.respMaxOutputTokens])) := by
  constructor
  · intro h1 h2
    simp only [_call_openai_chat_traced, hmodel, if_true]
    rw [if_pos ⟨h1, h2⟩]
  · intro hne
    simp only [_call_openai_chat_traced, hmodel, if_true]
    rw [if_neg ?_]
    rintro ⟨h1, h2⟩
    rcases hne with h | h
    · exact h h1
    · omega

/-- A Responses payload whose `incomplete_details.reason` is
`max_output_tokens`. -/
def incompleteResp : Value :=
  .vdict (.cons "incomplete_details"
    (.vdict (.cons "reason" (.vstr "max_output_tokens") .nil)) .nil)

/-- A client that always reports max-token incompletion. -/
def incompleteClient : OpenAIClient :=
  ⟨fun _ _ _ => incompleteResp, fun _ _ _ _ => []⟩

/-- C6 witness: with the default band [1024, 4096] and a requested cap of
512, the first call uses 1024, the incompletion triggers exactly one retry at
`min(4096, max(1536, 1280)) = 1536`, and no further call is made. -/
theorem c6_witness :
    (_call_openai_chat_traced ⟨1024, 4096⟩ incompleteClient [] "gpt-5-mini"
        (1/5) 512).2 = [1024, 1536] := by
  have h := (c6_structured_single_retry ⟨1024, 4096⟩ incompleteClient []
    "gpt-5-mini" (1/5) 512 (by decide)).1 (by decide) (by decide)
  exact h

/-- The empty-response 502 raised by the extractor is recognized by
`_is_empty_openai_http_error`. -/
theorem empty_err_detected :
    _is_empty_openai_http_error ⟨502, "OpenAI returned empty response"⟩ = true := by
  decide

/-- C7: under either protocol, when no text is extractable from the provider
response, `_call_openai_chat` returns the fixed fallback assistant string as
a SUCCESS value — the empty-response condition never surfaces as an error. -/
theorem c7_empty_extraction_falls_back (cfg : OpenAICfg) (client : OpenAIClient)
    (messages : List OAIMsg) (model : String) (temperature : ℚ) (maxTokens : Nat) :
    ((_should_use_responses_api model = true →
      (∀ cap, _extract_text_from_responses (client.responsesCreate model
          (_format_messages_for_responses messages) cap)
        = .error ⟨502, "OpenAI returned empty response"⟩) →
      _call_openai_chat cfg client messages model temperature maxTokens
        = .ok _ASSISTANT_FALLBACK_MESSAGE)
    ∧ (_should_use_responses_api model = false →
      (_extract_text_from_chat_choice
          (client.chatCompletionsCreate model messages temperature maxTokens).head?).getD ""
        = "" →
      _call_openai_chat cfg client messages model temperature maxTokens
        = .ok _ASSISTANT_FALLBACK_MESSAGE)) := by
  constructor
  · intro hm hext
    simp only [_call_openai_chat, _call_openai_chat_traced, hm, if_true]
    split
    · simp [finishResponses, hext, empty_err_detected]
    · simp [finishResponses, hext, empty_err_detected]
  · intro hm hext
    simp only [_call_openai_chat, _call_openai_chat_traced, hm, Bool.false_eq_true,
      if_false]
    cases hres : _extract_text_from_chat_choice
        (client.chatCompletionsCreate model messages temperature maxTokens).head? with
    | none => simp [hres]
    | some t =>
        have ht : t = "" := by
          rw [hres] at hext
          simpa using hext
        simp [hres, ht]

/-- C7 witness: a client whose structured responses are empty dicts and whose
legacy responses have no choices yields the fallback string under both
protocols (`gpt-5-mini` is structured, `gpt-4o` legacy). -/
theorem c7_witness :
    _call_openai_chat ⟨1024, 4096⟩ emptyClient [] "gpt-5-mini" (1/5) 512
        = .ok _ASSISTANT_FALLBACK_MESSAGE
      ∧ _call_openai_chat ⟨1024, 4096⟩ emptyClient [] "gpt-4o" (1/5) 512
        = .ok _ASSISTANT_FALLBACK_MESSAGE :=
  ⟨(c7_empty_extraction_falls_back ⟨1024, 4096⟩ emptyClient [] "gpt-5-mini"
      (1/5) 512).1 (by decide) (fun _ => rfl),
   (c7_empty_extraction_falls_back ⟨1024, 4096⟩ emptyClient [] "gpt-4o"
      (1/5) 512).2 (by decide) rfl⟩

/-- The trashed-room query of `upsert_chat_by_stock`. -/
def trashedRoomQuery (db : DB) (userId : Nat) (stock_code : String) : Option Chat :=
  maxByChatId (db.chats.filter (fun c =>
    c.user_id == userId && c.stock_code == some stock_code
      && decide (c.trash_can = TrashEnum.in_)))

/-- C9: the case analysis of `upsert_chat_by_stock` — an existing active room
is returned with existed = true and no write; else the most recent trashed
room is restored (same id, trash flag cleared) with existed = false; else a
fresh active room with id `next_chat_id` is created with existed = false,
its title defaulting to the `{code} 채팅` placeholder when none is supplied.
Concretely, trashing the only active AAPL room via the update operation and
calling the upsert again yields the same room id 7 with existed = false. -/
theorem c9_upsert_case_analysis (db : DB) (userId : Nat) (stock_code : String)
    (title : Option String) :
    ((∀ c, get_active_chat_by_stock db userId stock_code = some c →
        upsert_chat_by_stock db userId stock_code title = ((c, true), db))
    ∧ (get_active_chat_by_stock db userId stock_code = none →
       ∀ tr, trashedRoomQuery db userId stock_code = some tr →
         (upsert_chat_by_stock db userId stock_code title).1.2 = false
         ∧ (upsert_chat_by_stock db userId stock_code title).1.1.chat_id = tr.chat_id
         ∧ (upsert_chat_by_stock db userId stock_code title).1.1.trash_can = TrashEnum.out)
    ∧ (get_active_chat_by_stock db userId stock_code = none →
       trashedRoomQuery db userId stock_code = none →
         (upsert_chat_by_stock db userId stock_code title).1.2 = false
         ∧ (upsert_chat_by_stock db userId stock_code title).1.1.trash_can = TrashEnum.out
         ∧ (upsert_chat_by_stock db userId stock_code title).1.1.chat_id = db.next_chat_id
         ∧ (title = none →
             (upsert_chat_by_stock db userId stock_code title).1.1.title
               = stock_code ++ " 채팅"))
    ∧ ((upsert_chat_by_stock
          (update_chat_room_for_user ⟨[⟨7, 1, "AAPL 채팅", some "AAPL", .out, 0⟩],
            [], 8, 0, 0⟩ 7 1 ⟨none, some "in"⟩).2 1 "AAPL" none).1.1.chat_id = 7
        ∧ (upsert_chat_by_stock
            (update_chat_room_for_user ⟨[⟨7, 1, "AAPL 채팅", some "AAPL", .out, 0⟩],
              [], 8, 0, 0⟩ 7 1 ⟨none, some "in"⟩).2 1 "AAPL" none).1.2 = false)) := by
  refine ⟨?_, ?_, ?_, ?_⟩
  · intro c h
    simp only [upsert_chat_by_stock, h]
  · intro h tr htr
    simp only [trashedRoomQuery] at htr
    refine ⟨?_, ?_, ?_⟩ <;> simp only [upsert_chat_by_stock, h, htr] <;>
      first
        | rfl
        | (split <;> first | rfl | (split <;> rfl))
  · intro h htr
    simp only [trashedRoomQuery] at htr
    refine ⟨?_, ?_, ?_, ?_⟩ <;> simp only [upsert_chat_by_stock, h, htr]
    all_goals try rfl
    intro ht
    subst ht
    rfl
  · constructor
    · decide
    · decide

/-- The session holding only the active AAPL room of user 1. -/
def c9_db : DB := ⟨[aaplActive], [], 3, 0, 0⟩

/-- C9 witness: with an active AAPL room present, the upsert returns that
room with existed = true and no write. -/
theorem c9_witness :
    upsert_chat_by_stock c9_db 1 "AAPL" none = ((aaplActive, true), c9_db) :=
  (c9_upsert_case_analysis c9_db 1 "AAPL" none).1 aaplActive (by decide)

/-- A Responses payload with one `message` output holding one `output_text`
block with text `"hi there"`. -/
def goodResp : Value :=
  Value.dictOf [("output", Value.listOf [Value.dictOf
    [("type", .vstr "message"),
     ("content", Value.listOf [Value.dictOf
       [("type", .vstr "output_text"), ("text", .vstr "hi there")]])]])]

/-- A client whose structured responses carry the text `"hi there"`. -/
def goodClient : OpenAIClient :=
  ⟨fun _ _ _ => goodResp, fun _ _ _ _ => []⟩

/-- A chat environment around `goodClient`, retrieval disabled. -/
def envGood : ChatEnv :=
  ⟨⟨1024, 4096⟩, goodClient, "gpt-5-mini", 1/5, 512, ragOff⟩

/-- The session for the C1 run: the active AAPL room, no messages yet. -/
def c1_db : DB := ⟨[aaplActive], [], 3, 10, 100⟩

/-- C1: a fully successful run of `create_message_and_reply` (owned room,
provider text extracted, retrieval disabled) returns the PAIR of the
persisted user message and persisted assistant message — there is no third
component: the service discards the news-document list
(`generate_and_save_assistant_reply` never returns it), while its only
caller, `create_message_with_openai` (chat.py:57), unpacks three values. -/
theorem c1_create_message_and_reply_returns_pair :
    create_message_and_reply envGood c1_db 1 1 ⟨"What is the outlook?"⟩ none
      = (.ok (⟨10, 1, 1, .user, "What is the outlook?", 100⟩,
              ⟨11, 1, 1, .assistant, "hi there", 101⟩),
         ⟨[⟨1, 1, "AAPL 채팅", some "AAPL", .out, 101⟩],
          [⟨10, 1, 1, .user, "What is the outlook?", 100⟩,
           ⟨11, 1, 1, .assistant, "hi there", 101⟩],
          3, 12, 102⟩) := by
  rfl
